import Mathlib

/-!
# Windows runner host window (`windows/runner/flutter_window.cpp`)

A shallow embedding of the three entry points of `FlutterWindow`
(`OnCreate`, `OnDestroy`, `MessageHandler`) and of the file-local helper
`RegisterPluginsForSubWindow`.

Calls into collaborators that live outside the file (the Win32 base window,
the engine controller, the plugin attach routines, the shell API) are recorded
as events of a trace, in program order.  What those collaborators answer is
supplied by an environment record, so every theorem quantifies over all
possible answers.  A pointer is an `Option`; dereferencing a null pointer ends
the run with `Outcome.nullDereference`.
-/

namespace Runner

/-! ## Data model -/

/-- A wide string (`wchar_t*`): the UTF-16 code units before the terminator. -/
abbrev WString := List Nat

/-- A window handle (`HWND`). -/
abbrev HWND := Nat
/-- A message identifier (`UINT`). -/
abbrev UINT := Nat
/-- First generic message parameter (`WPARAM`). -/
abbrev WPARAM := Nat
/-- Second generic message parameter (`LPARAM`). -/
abbrev LPARAM := Int
/-- A window-procedure result (`LRESULT`). -/
abbrev LRESULT := Int

/-- The Windows SDK message identifier `WM_FONTCHANGE` (`0x001D` in WinUser.h). -/
def WM_FONTCHANGE : UINT := 0x001D

/-- A client rectangle (`RECT`). -/
structure RECT where
  left : Int
  top : Int
  right : Int
  bottom : Int
  deriving DecidableEq, Repr

/-- The object behind a non-null `flutter::FlutterEngine*`. -/
structure FlutterEngine where
  id : Nat
  deriving DecidableEq, Repr

/-- The object behind a non-null `flutter::FlutterView*`; `GetNativeWindow()`
returns `nativeWindow`. -/
structure FlutterView where
  nativeWindow : HWND
  deriving DecidableEq, Repr

/-- A constructed `flutter::FlutterViewController`: the size it was built with
and what its accessors `engine()` and `view()` return (either may be null). -/
structure FlutterViewController where
  width : Int
  height : Int
  engine : Option FlutterEngine
  view : Option FlutterView
  deriving DecidableEq, Repr

/-- The mutable state of the window object that the file touches:
`std::unique_ptr<flutter::FlutterViewController> flutter_controller_`. -/
structure FlutterWindow where
  flutter_controller_ : Option FlutterViewController
  deriving DecidableEq, Repr

/-- A freshly constructed window object: the owning pointer is empty. -/
def FlutterWindow.new : FlutterWindow := ⟨none⟩

/-- Calls that leave the file, in the order the code makes them. -/
inductive Event where
  /-- Call of `Win32Window::OnCreate()` -/
  | Win32OnCreate
  /-- Call of `GetClientArea()` -/
  | GetClientArea
  /-- Construction by `std::make_unique<flutter::FlutterViewController>(width, height, project_)` -/
  | ConstructController (width height : Int)
  /-- Destruction of the controller owned by `flutter_controller_`. -/
  | ReleaseController
  /-- Call of `RegisterPlugins(engine)`: registration of the main plugin set. -/
  | RegisterPlugins (engine : FlutterEngine)
  /-- Call of `DesktopMultiWindowSetWindowCreatedCallback(...)` -/
  | SetWindowCreatedCallback
  /-- Call of `SetChildContent(hwnd)` -/
  | SetChildContent (content : HWND)
  /-- Call of `::CommandLineToArgvW(::GetCommandLineW(), &argc)` -/
  | CommandLineToArgvW
  /-- Call of `::LocalFree(argv)` -/
  | LocalFree
  /-- Call of `engine->SetNextFrameCallback(...)`: the callback shows the window. -/
  | SetNextFrameCallback (engine : FlutterEngine)
  /-- Call of `flutter_controller_->ForceRedraw()` -/
  | ForceRedraw
  /-- Call of `Win32Window::OnDestroy()` -/
  | Win32OnDestroy
  /-- Call of `flutter_controller_->HandleTopLevelWindowProc(hwnd, message, wparam, lparam)` -/
  | HandleTopLevelWindowProc (hwnd : HWND) (message : UINT) (wparam : WPARAM) (lparam : LPARAM)
  /-- Call of `engine->ReloadSystemFonts()` -/
  | ReloadSystemFonts (engine : FlutterEngine)
  /-- Call of `Win32Window::MessageHandler(hwnd, message, wparam, lparam)` -/
  | Win32MessageHandler (hwnd : HWND) (message : UINT) (wparam : WPARAM) (lparam : LPARAM)
  deriving DecidableEq, Repr

/-- Whether an event is a registration of the next-frame (window-show) callback. -/
def Event.isSetNextFrameCallback : Event → Bool
  | .SetNextFrameCallback _ => true
  | _ => false

/-- Whether an event is a request to the engine to reload the system fonts. -/
def Event.isReloadSystemFonts : Event → Bool
  | .ReloadSystemFonts _ => true
  | _ => false

/-- Whether an event is a call of the base class message handler. -/
def Event.isWin32MessageHandler : Event → Bool
  | .Win32MessageHandler _ _ _ _ => true
  | _ => false

/-- Whether an event is a registration of the main plugin set. -/
def Event.isRegisterPlugins : Event → Bool
  | .RegisterPlugins _ => true
  | _ => false

/-- Whether an event attaches child content to the window. -/
def Event.isSetChildContent : Event → Bool
  | .SetChildContent _ => true
  | _ => false

/-- Whether an event constructs an engine controller. -/
def Event.isConstructController : Event → Bool
  | .ConstructController _ _ => true
  | _ => false

/-! ## `RegisterPluginsForSubWindow` -/

/-- A plugin registrar handle (`FlutterDesktopPluginRegistrarRef`). -/
abbrev Registrar := Nat

/-- The capability the helper receives (`flutter::PluginRegistry*`). -/
structure PluginRegistry where
  GetRegistrarForPlugin : String → Registrar

/-- Calls made by the plugin registration helper. -/
inductive PluginEvent where
  /-- Call of `registry->GetRegistrarForPlugin(name)` -/
  | GetRegistrarForPlugin (name : String)
  /-- A call of the attach routine `attach` with the registrar `registrar`. -/
  | RegisterWithRegistrar (attach : String) (registrar : Registrar)
  deriving DecidableEq, Repr

/-- One statement of the helper: the argument is evaluated (a registrar is
requested under `name`), then the attach routine is called with it. -/
def registerOne (registry : PluginRegistry) (attach name : String) : List PluginEvent :=
  [PluginEvent.GetRegistrarForPlugin name,
   PluginEvent.RegisterWithRegistrar attach (registry.GetRegistrarForPlugin name)]

/-- The body of `static void RegisterPluginsForSubWindow(flutter::PluginRegistry*)`. -/
def RegisterPluginsForSubWindow (registry : PluginRegistry) : List PluginEvent :=
  registerOne registry "DesktopMultiWindowPluginRegisterWithRegistrar"
      "DesktopMultiWindowPlugin" ++
  registerOne registry "DynamicColorPluginCApiRegisterWithRegistrar"
      "DynamicColorPluginCApi" ++
  registerOne registry "IsarFlutterLibsPluginRegisterWithRegistrar"
      "IsarFlutterLibsPlugin" ++
  registerOne registry "MediaKitLibsWindowsAudioPluginCApiRegisterWithRegistrar"
      "MediaKitLibsWindowsAudioPluginCApi" ++
  registerOne registry "PermissionHandlerWindowsPluginRegisterWithRegistrar"
      "PermissionHandlerWindowsPlugin" ++
  registerOne registry "ScreenRetrieverWindowsPluginCApiRegisterWithRegistrar"
      "ScreenRetrieverWindowsPluginCApi" ++
  registerOne registry "UrlLauncherWindowsRegisterWithRegistrar"
      "UrlLauncherWindows" ++
  registerOne registry "WindowManagerPluginRegisterWithRegistrar"
      "WindowManagerPlugin"

/-- The names under which a run of the helper requested a registrar, in order. -/
def requestedNames : List PluginEvent → List String
  | [] => []
  | PluginEvent.GetRegistrarForPlugin name :: rest => name :: requestedNames rest
  | PluginEvent.RegisterWithRegistrar _ _ :: rest => requestedNames rest

/-- The attach calls of a run of the helper, in order. -/
def attachCalls : List PluginEvent → List (String × Registrar)
  | [] => []
  | PluginEvent.GetRegistrarForPlugin _ :: rest => attachCalls rest
  | PluginEvent.RegisterWithRegistrar attach r :: rest => (attach, r) :: attachCalls rest

/-! ## The `--minimized` scan of `OnCreate` -/

/-- `wcscmp`: compares two wide strings unit by unit; the terminator compares
below every unit of a string. -/
def wcscmp : WString → WString → Int
  | [], [] => 0
  | [], _ :: _ => -1
  | _ :: _, [] => 1
  | a :: as, b :: bs => if a = b then wcscmp as bs else if a < b then -1 else 1

/-- The literal `L"--minimized"`. -/
def minimizedLiteral : WString :=
  [0x2D, 0x2D, 0x6D, 0x69, 0x6E, 0x69, 0x6D, 0x69, 0x7A, 0x65, 0x64]

/-- The loop `for (int i = 1; i < argc; i++)` of `OnCreate`, entered at index
`i`: the value of `start_minimized` when the loop is left. -/
def scanArguments (argv : List WString) (argc : Nat) (i : Nat) : Bool :=
  if i < argc then
    if wcscmp (argv.getD i []) minimizedLiteral = 0 then
      true
    else
      scanArguments argv argc (i + 1)
  else
    false
termination_by argc - i

/-- The value of the local `start_minimized` of `OnCreate`, computed from what
`CommandLineToArgvW` returned: `none` is a null `argv`, and `argc` is the number
of entries of a non-null `argv`. -/
def start_minimized (argv : Option (List WString)) : Bool :=
  match argv with
  | none => false
  | some args => scanArguments args args.length 1

/-! ## `FlutterWindow::OnCreate` -/

/-- What the collaborators answer during one run of `OnCreate`. -/
structure CreateEnv where
  /-- Result of `Win32Window::OnCreate()`. -/
  Win32OnCreate : Bool
  /-- Result of `GetClientArea()`. -/
  GetClientArea : RECT
  /-- What `engine()` of the controller built in this run returns. -/
  engine : Option FlutterEngine
  /-- What `view()` of the controller built in this run returns. -/
  view : Option FlutterView
  /-- Result of `::CommandLineToArgvW(::GetCommandLineW(), &argc)`: `none` is
  a null pointer, otherwise the `argc` entries of `argv`. -/
  CommandLineToArgvW : Option (List WString)

/-- A finished run of a member function: its return value, the window object
afterwards and the calls it made. -/
structure Run (α : Type) where
  result : α
  window : FlutterWindow
  trace : List Event

/-- The body of `bool FlutterWindow::OnCreate()`. -/
def FlutterWindow.OnCreate (env : CreateEnv) (self : FlutterWindow) : Run Bool :=
  if env.Win32OnCreate = false then
    ⟨false, self, [Event.Win32OnCreate]⟩
  else
    let frame := env.GetClientArea
    let controller : FlutterViewController :=
      ⟨frame.right - frame.left, frame.bottom - frame.top, env.engine, env.view⟩
    let constructed : List Event :=
      [Event.Win32OnCreate, Event.GetClientArea,
        Event.ConstructController controller.width controller.height] ++
      (if self.flutter_controller_.isSome then [Event.ReleaseController] else [])
    let self : FlutterWindow := { self with flutter_controller_ := some controller }
    match controller.engine, controller.view with
    | some engine, some view =>
      let argv := env.CommandLineToArgvW
      let minimized := start_minimized argv
      ⟨true, self,
        constructed ++
        [Event.RegisterPlugins engine, Event.SetWindowCreatedCallback,
          Event.SetChildContent view.nativeWindow, Event.CommandLineToArgvW] ++
        (if argv.isSome then [Event.LocalFree] else []) ++
        (if minimized = false then [Event.SetNextFrameCallback engine] else []) ++
        [Event.ForceRedraw]⟩
    | _, _ => ⟨false, self, constructed⟩

/-! ## `FlutterWindow::OnDestroy` -/

/-- The body of `void FlutterWindow::OnDestroy()`. -/
def FlutterWindow.OnDestroy (self : FlutterWindow) : Run Unit :=
  match self.flutter_controller_ with
  | some _ =>
    ⟨(), { self with flutter_controller_ := none },
      [Event.ReleaseController, Event.Win32OnDestroy]⟩
  | none => ⟨(), self, [Event.Win32OnDestroy]⟩

/-! ## `FlutterWindow::MessageHandler` -/

/-- What the collaborators answer during one run of `MessageHandler`. -/
structure MessageEnv where
  /-- Result of `HandleTopLevelWindowProc` of a controller: `some r` is
  "handled, with result `r`", `none` is "not handled". -/
  HandleTopLevelWindowProc :
    FlutterViewController → HWND → UINT → WPARAM → LPARAM → Option LRESULT
  /-- Result of `Win32Window::MessageHandler`. -/
  Win32MessageHandler : HWND → UINT → WPARAM → LPARAM → LRESULT

/-- How a run of `MessageHandler` ends. -/
inductive Outcome where
  /-- The function returned `result`. -/
  | returned (result : LRESULT)
  /-- The function applied `->` to a null pointer (undefined behaviour). -/
  | nullDereference
  deriving DecidableEq, Repr

/-- A run of `MessageHandler`: how it ended and the calls made until then. -/
structure MessageRun where
  outcome : Outcome
  trace : List Event
  deriving DecidableEq, Repr

/-- The body of `LRESULT FlutterWindow::MessageHandler(HWND, UINT, WPARAM, LPARAM)`. -/
def FlutterWindow.MessageHandler (env : MessageEnv) (self : FlutterWindow)
    (hwnd : HWND) (message : UINT) (wparam : WPARAM) (lparam : LPARAM) : MessageRun :=
  -- if (flutter_controller_) { result = ...->HandleTopLevelWindowProc(...); }
  let offer : List Event × Option LRESULT :=
    match self.flutter_controller_ with
    | some controller =>
      ([Event.HandleTopLevelWindowProc hwnd message wparam lparam],
        env.HandleTopLevelWindowProc controller hwnd message wparam lparam)
    | none => ([], none)
  match offer.2 with
  | some result => ⟨Outcome.returned result, offer.1⟩
  | none =>
    -- switch (message) { case WM_FONTCHANGE: ...->engine()->ReloadSystemFonts(); }
    let reload : Option (List Event) :=
      if message = WM_FONTCHANGE then
        match self.flutter_controller_ with
        | none => none
        | some controller =>
          match controller.engine with
          | none => none
          | some engine => some [Event.ReloadSystemFonts engine]
      else
        some []
    match reload with
    | none => ⟨Outcome.nullDereference, offer.1⟩
    | some reloaded =>
      ⟨Outcome.returned (env.Win32MessageHandler hwnd message wparam lparam),
        offer.1 ++ reloaded ++ [Event.Win32MessageHandler hwnd message wparam lparam]⟩

/-! ## Reference definition of the start-minimized flag -/

/-- Reference definition of the start-minimized flag, in the words of the
specification: `argv` is non-null and there is an index `i` with
`1 <= i < argc` such that `argv[i]` is exactly the string `--minimized`. -/
def start_minimized_reference (argv : Option (List WString)) : Prop :=
  ∃ args, argv = some args ∧
    ∃ i, 1 ≤ i ∧ i < args.length ∧ args[i]? = some minimizedLiteral

/-- Number of registrations of the next-frame callback in a trace. -/
def showCallbackCount (trace : List Event) : Nat :=
  trace.countP Event.isSetNextFrameCallback

/-- Number of controller releases in a trace. -/
def releaseCount (trace : List Event) : Nat :=
  trace.count Event.ReleaseController

/-! ## Sample inputs -/

/-- The wide string of an ASCII text. -/
def wide (text : String) : WString := text.toList.map Char.toNat

/-- A window of 800 by 600 whose controller has both engine and view. -/
def sampleCreateEnv (argv : Option (List WString)) : CreateEnv :=
  { Win32OnCreate := true
    GetClientArea := ⟨0, 0, 800, 600⟩
    engine := some ⟨1⟩
    view := some ⟨2⟩
    CommandLineToArgvW := argv }

/-- A valid controller, as left by a successful `OnCreate`. -/
def sampleController : FlutterViewController := ⟨800, 600, some ⟨1⟩, some ⟨2⟩⟩

/-- A controller whose `engine()` is null, as a run of `OnCreate` that fails
its engine check leaves it in `flutter_controller_`. -/
def enginelessController : FlutterViewController := ⟨800, 600, none, some ⟨2⟩⟩

/-- An engine that claims every message with result `7`; the default window
procedure answers `0`. -/
def claimingEnv : MessageEnv :=
  { HandleTopLevelWindowProc := fun _ _ _ _ _ => some 7
    Win32MessageHandler := fun _ _ _ _ => 0 }

/-- An engine that claims no message; the default window procedure answers
with the message identifier. -/
def decliningEnv : MessageEnv :=
  { HandleTopLevelWindowProc := fun _ _ _ _ _ => none
    Win32MessageHandler := fun _ message _ _ => message }

/-! ## Lemmas on the argument scan -/

open FlutterWindow

theorem wcscmp_eq_zero_iff (a b : WString) : wcscmp a b = 0 ↔ a = b := by
  induction a generalizing b with
  | nil => cases b <;> simp [wcscmp]
  | cons x xs ih =>
    cases b with
    | nil => simp [wcscmp]
    | cons y ys =>
      by_cases hxy : x = y
      · simp [wcscmp, hxy, ih]
      · by_cases hlt : x < y <;> simp [wcscmp, hxy, hlt]

theorem scanArguments_eq_true_iff (argv : List WString) (argc i : Nat) :
    scanArguments argv argc i = true ↔
      ∃ j, i ≤ j ∧ j < argc ∧ argv.getD j [] = minimizedLiteral := by
  induction i using scanArguments.induct argv argc with
  | case1 i hlt hcmp =>
    rw [scanArguments]
    simp only [hlt, hcmp, if_true]
    simp only [true_iff]
    exact ⟨i, le_refl i, hlt, (wcscmp_eq_zero_iff _ _).mp hcmp⟩
  | case2 i hlt hcmp ih =>
    rw [scanArguments]
    simp only [hlt, hcmp, if_true, if_false]
    rw [ih]
    constructor
    · rintro ⟨j, hij, hj, heq⟩
      exact ⟨j, by omega, hj, heq⟩
    · rintro ⟨j, hij, hj, heq⟩
      have hne : j ≠ i := by
        rintro rfl
        exact hcmp ((wcscmp_eq_zero_iff _ _).mpr heq)
      exact ⟨j, by omega, hj, heq⟩
  | case3 i hge =>
    rw [scanArguments]
    simp only [hge, if_false]
    constructor
    · intro h; cases h
    · rintro ⟨j, hij, hj, _⟩
      omega

theorem start_minimized_eq_true_iff (argv : Option (List WString)) :
    start_minimized argv = true ↔ start_minimized_reference argv := by
  cases argv with
  | none => simp [start_minimized, start_minimized_reference]
  | some args =>
    simp only [start_minimized, start_minimized_reference, scanArguments_eq_true_iff,
      Option.some.injEq, exists_eq_left']
    constructor
    · rintro ⟨j, h1, hj, heq⟩
      refine ⟨j, h1, hj, ?_⟩
      rw [List.getElem?_eq_getElem hj]
      rw [List.getD_eq_getElem _ _ hj] at heq
      rw [heq]
    · rintro ⟨j, h1, hj, heq⟩
      refine ⟨j, h1, hj, ?_⟩
      rw [List.getElem?_eq_getElem hj] at heq
      rw [List.getD_eq_getElem _ _ hj]
      exact Option.some.inj heq

theorem wide_minimized : wide "--minimized" = minimizedLiteral := by decide

/-- The flag is false exactly when the reference condition fails. -/
theorem start_minimized_eq_false_iff (argv : Option (List WString)) :
    start_minimized argv = false ↔ ¬ start_minimized_reference argv := by
  rw [← start_minimized_eq_true_iff]
  simp

/-- The trace of a run of `OnCreate` in which the base window is created and the
controller has both engine and view. -/
theorem OnCreate_success_run (env : CreateEnv) (self : FlutterWindow)
    (engine : FlutterEngine) (view : FlutterView)
    (hbase : env.Win32OnCreate = true) (hengine : env.engine = some engine)
    (hview : env.view = some view) :
    (OnCreate env self).result = true ∧
    (OnCreate env self).trace =
      [Event.Win32OnCreate, Event.GetClientArea,
        Event.ConstructController (env.GetClientArea.right - env.GetClientArea.left)
          (env.GetClientArea.bottom - env.GetClientArea.top)] ++
      (if self.flutter_controller_.isSome then [Event.ReleaseController] else []) ++
      [Event.RegisterPlugins engine, Event.SetWindowCreatedCallback,
        Event.SetChildContent view.nativeWindow, Event.CommandLineToArgvW] ++
      (if env.CommandLineToArgvW.isSome then [Event.LocalFree] else []) ++
      (if start_minimized env.CommandLineToArgvW = false then
        [Event.SetNextFrameCallback engine] else []) ++
      [Event.ForceRedraw] := by
  simp [OnCreate, hbase, hengine, hview]

/-! ## Claims -/

/-- C10: the start-minimized flag computed in `OnCreate` equals the reference
definition for every argument vector: it is true if and only if `argv` is
non-null and some entry at an index `i` with `1 <= i < argc` is exactly the
string `--minimized`.  In particular an argument vector whose only occurrence
of `--minimized` is at index 0 yields false, a null `argv` yields false, and a
proper prefix, an extension or a different capitalisation of the token in an
argument position does not set the flag. -/
theorem start_minimized_refines_reference :
    (∀ argv : Option (List WString),
      start_minimized argv = true ↔ start_minimized_reference argv) ∧
    (∀ rest : List WString, minimizedLiteral ∉ rest →
      start_minimized (some (minimizedLiteral :: rest)) = false) ∧
    start_minimized none = false ∧
    start_minimized (some [wide "app.exe", wide "--minimize"]) = false ∧
    start_minimized (some [wide "app.exe", wide "--minimized2"]) = false ∧
    start_minimized (some [wide "app.exe", wide "x--minimized"]) = false ∧
    start_minimized (some [wide "app.exe", wide "--Minimized"]) = false := by
  refine ⟨start_minimized_eq_true_iff, ?_, ?_, ?_, ?_, ?_, ?_⟩
  · intro rest hrest
    rw [start_minimized_eq_false_iff]
    rintro ⟨args, hargs, i, h1, hi, hget⟩
    cases hargs
    obtain ⟨k, rfl⟩ : ∃ k, i = k + 1 := ⟨i - 1, by omega⟩
    rw [List.getElem?_cons_succ] at hget
    exact hrest (List.getElem?_mem hget)
  · rfl
  all_goals
    rw [start_minimized_eq_false_iff]
    rintro ⟨args, hargs, i, h1, hi, hget⟩
    cases hargs
    have hi1 : i = 1 := by simp at hi; omega
    subst hi1
    revert hget
    decide

/-- Witness for C10: the flag at index 1 sets `start_minimized`, the flag at
index 0 alone does not. -/
theorem start_minimized_refines_reference_witness :
    (start_minimized (some [wide "app.exe", minimizedLiteral]) = true ↔
      start_minimized_reference (some [wide "app.exe", minimizedLiteral])) ∧
    minimizedLiteral ∉ [wide "--verbose"] ∧
    start_minimized (some [minimizedLiteral, wide "--verbose"]) = false :=
  ⟨start_minimized_refines_reference.1 _, by decide,
    start_minimized_refines_reference.2.1 [wide "--verbose"] (by decide)⟩

/-- C1, as stated, fails: the argument list `["--minimized"]` contains the
token (as its first entry), creation succeeds, and the next-frame callback is
registered once all the same. -/
theorem OnCreate_token_at_index_zero_registers_callback :
    (sampleCreateEnv (some [minimizedLiteral])).CommandLineToArgvW
      = some [minimizedLiteral] ∧
    minimizedLiteral ∈ [minimizedLiteral] ∧
    (OnCreate (sampleCreateEnv (some [minimizedLiteral])) FlutterWindow.new).result = true ∧
    showCallbackCount
      (OnCreate (sampleCreateEnv (some [minimizedLiteral])) FlutterWindow.new).trace = 1 ∧
    ¬ showCallbackCount
      (OnCreate (sampleCreateEnv (some [minimizedLiteral])) FlutterWindow.new).trace = 0 := by
  simp [OnCreate, sampleCreateEnv, FlutterWindow.new, start_minimized, scanArguments,
    showCallbackCount, Event.isSetNextFrameCallback]

/-- C1, amended: in every run of `OnCreate` in which the base window is created
and the controller has both engine and view, if the argument vector is non-null
and contains the token `--minimized` at some index from 1 on (after the first
entry), the next-frame callback is never registered; otherwise (no such entry,
or a null argument vector) it is registered exactly once. -/
theorem OnCreate_show_callback (env : CreateEnv) (self : FlutterWindow)
    (engine : FlutterEngine) (view : FlutterView)
    (hbase : env.Win32OnCreate = true) (hengine : env.engine = some engine)
    (hview : env.view = some view) :
    (start_minimized_reference env.CommandLineToArgvW →
      showCallbackCount (OnCreate env self).trace = 0) ∧
    (¬ start_minimized_reference env.CommandLineToArgvW →
      showCallbackCount (OnCreate env self).trace = 1) := by
  rw [(OnCreate_success_run env self engine view hbase hengine hview).2]
  constructor
  · intro h
    rw [← start_minimized_eq_true_iff] at h
    cases hc : self.flutter_controller_ <;> cases ha : env.CommandLineToArgvW <;>
      simp_all [showCallbackCount, Event.isSetNextFrameCallback, List.countP_cons]
  · intro h
    rw [← start_minimized_eq_false_iff] at h
    cases hc : self.flutter_controller_ <;> cases ha : env.CommandLineToArgvW <;>
      simp_all [showCallbackCount, Event.isSetNextFrameCallback, List.countP_cons]

/-- Witness for C1: with `--minimized` as second entry no callback is
registered; with `--verbose` instead it is registered once. -/
theorem OnCreate_show_callback_witness :
    showCallbackCount
      (OnCreate (sampleCreateEnv (some [wide "app.exe", minimizedLiteral]))
        FlutterWindow.new).trace = 0 ∧
    showCallbackCount
      (OnCreate (sampleCreateEnv (some [wide "app.exe", wide "--verbose"]))
        FlutterWindow.new).trace = 1 :=
  ⟨(OnCreate_show_callback (sampleCreateEnv (some [wide "app.exe", minimizedLiteral]))
      FlutterWindow.new ⟨1⟩ ⟨2⟩ rfl rfl rfl).1
      ⟨[wide "app.exe", minimizedLiteral], rfl, 1, by decide, by decide, by decide⟩,
   (OnCreate_show_callback (sampleCreateEnv (some [wide "app.exe", wide "--verbose"]))
      FlutterWindow.new ⟨1⟩ ⟨2⟩ rfl rfl rfl).2 (by
        rintro ⟨args, hargs, i, h1, hi, hget⟩
        cases hargs
        have hi1 : i = 1 := by simp at hi; omega
        subst hi1
        revert hget
        decide)⟩

/-- The trace of a failing run of `OnCreate` and the window it leaves. -/
theorem OnCreate_failure_run (env : CreateEnv) (self : FlutterWindow)
    (hfail : env.Win32OnCreate = false ∨ env.engine = none ∨ env.view = none) :
    (OnCreate env self).result = false ∧
    ((OnCreate env self).trace = [Event.Win32OnCreate] ∧ env.Win32OnCreate = false ∧
        (OnCreate env self).window = self ∨
      (OnCreate env self).trace =
        [Event.Win32OnCreate, Event.GetClientArea,
          Event.ConstructController (env.GetClientArea.right - env.GetClientArea.left)
            (env.GetClientArea.bottom - env.GetClientArea.top)] ++
        (if self.flutter_controller_.isSome then [Event.ReleaseController] else []) ∧
        env.Win32OnCreate = true) := by
  cases hb : env.Win32OnCreate with
  | false => simp [OnCreate, hb]
  | true =>
    cases he : env.engine with
    | none => simp [OnCreate, hb, he]
    | some e =>
      cases hv : env.view with
      | none => simp [OnCreate, hb, he, hv]
      | some v => simp [hb, he, hv] at hfail

/-- C3: `OnCreate` returns false exactly when base window creation fails or the
engine or the view of the constructed controller is absent; in every such run
the trace holds no main plugin registration, no sub-window callback
installation, no `SetChildContent`, no `SetNextFrameCallback` and no
`ForceRedraw`; and when base window creation fails no controller is constructed
and the window object is left as it was. -/
theorem OnCreate_false_iff_and_no_setup (env : CreateEnv) (self : FlutterWindow) :
    ((OnCreate env self).result = false ↔
      (env.Win32OnCreate = false ∨ env.engine = none ∨ env.view = none)) ∧
    ((OnCreate env self).result = false →
      ∀ e ∈ (OnCreate env self).trace,
        e.isRegisterPlugins = false ∧ e ≠ Event.SetWindowCreatedCallback ∧
        e.isSetChildContent = false ∧ e.isSetNextFrameCallback = false ∧
        e ≠ Event.ForceRedraw) ∧
    (env.Win32OnCreate = false →
      (∀ e ∈ (OnCreate env self).trace, e.isConstructController = false) ∧
      (OnCreate env self).window = self) := by
  have hiff : (OnCreate env self).result = false ↔
      (env.Win32OnCreate = false ∨ env.engine = none ∨ env.view = none) := by
    constructor
    · intro h
      by_contra hcon
      push_neg at hcon
      obtain ⟨hb, he, hv⟩ := hcon
      obtain ⟨e, he⟩ := Option.ne_none_iff_exists'.mp he
      obtain ⟨v, hv⟩ := Option.ne_none_iff_exists'.mp hv
      have := (OnCreate_success_run env self e v (by simpa using hb) he hv).1
      rw [h] at this
      cases this
    · intro h
      exact (OnCreate_failure_run env self h).1
  refine ⟨hiff, ?_, ?_⟩
  · intro h
    rcases (OnCreate_failure_run env self (hiff.mp h)).2 with ⟨ht, _, _⟩ | ⟨ht, _⟩
    · rw [ht]
      simp [Event.isRegisterPlugins, Event.isSetChildContent, Event.isSetNextFrameCallback]
    · rw [ht]
      cases self.flutter_controller_ <;>
        simp [Event.isRegisterPlugins, Event.isSetChildContent,
          Event.isSetNextFrameCallback]
  · intro hb
    rcases (OnCreate_failure_run env self (Or.inl hb)).2 with ⟨ht, _, hw⟩ | ⟨_, hb2⟩
    · rw [ht]
      exact ⟨by simp [Event.isConstructController], hw⟩
    · rw [hb] at hb2
      cases hb2

/-- Witness for C3: a run whose controller has no view fails without setup, and
a run whose base window creation fails constructs nothing. -/
theorem OnCreate_false_iff_and_no_setup_witness :
    (OnCreate ⟨true, ⟨0, 0, 800, 600⟩, some ⟨1⟩, none, none⟩ FlutterWindow.new).result
      = false ∧
    (∀ e ∈ (OnCreate ⟨true, ⟨0, 0, 800, 600⟩, some ⟨1⟩, none, none⟩
        FlutterWindow.new).trace,
      e.isRegisterPlugins = false ∧ e ≠ Event.SetWindowCreatedCallback ∧
      e.isSetChildContent = false ∧ e.isSetNextFrameCallback = false ∧
      e ≠ Event.ForceRedraw) ∧
    ((∀ e ∈ (OnCreate ⟨false, ⟨0, 0, 800, 600⟩, some ⟨1⟩, some ⟨2⟩, none⟩
        FlutterWindow.new).trace, e.isConstructController = false) ∧
      (OnCreate ⟨false, ⟨0, 0, 800, 600⟩, some ⟨1⟩, some ⟨2⟩, none⟩
        FlutterWindow.new).window = FlutterWindow.new) :=
  ⟨(OnCreate_false_iff_and_no_setup ⟨true, ⟨0, 0, 800, 600⟩, some ⟨1⟩, none, none⟩
      FlutterWindow.new).1.mpr (Or.inr (Or.inr rfl)),
   (OnCreate_false_iff_and_no_setup ⟨true, ⟨0, 0, 800, 600⟩, some ⟨1⟩, none, none⟩
      FlutterWindow.new).2.1 rfl,
   (OnCreate_false_iff_and_no_setup ⟨false, ⟨0, 0, 800, 600⟩, some ⟨1⟩, some ⟨2⟩, none⟩
      FlutterWindow.new).2.2 rfl⟩

/-- C7: in every run of `OnCreate` in which the base window is created and the
controller has both engine and view, with or without the `--minimized` flag,
`ForceRedraw` is requested exactly once and as the last call, after the main
plugin registration, the installation of the sub-window callback,
`SetChildContent` and any registration of the next-frame callback; the run then
returns true. -/
theorem OnCreate_force_redraw_once_last (env : CreateEnv) (self : FlutterWindow)
    (engine : FlutterEngine) (view : FlutterView)
    (hbase : env.Win32OnCreate = true) (hengine : env.engine = some engine)
    (hview : env.view = some view) :
    (OnCreate env self).result = true ∧
    (OnCreate env self).trace.count Event.ForceRedraw = 1 ∧
    ∃ setup : List Event,
      (OnCreate env self).trace = setup ++ [Event.ForceRedraw] ∧
      Event.ForceRedraw ∉ setup ∧
      Event.RegisterPlugins engine ∈ setup ∧
      Event.SetWindowCreatedCallback ∈ setup ∧
      Event.SetChildContent view.nativeWindow ∈ setup ∧
      (∀ e ∈ (OnCreate env self).trace, e.isSetNextFrameCallback = true → e ∈ setup) := by
  obtain ⟨hres, htrace⟩ := OnCreate_success_run env self engine view hbase hengine hview
  refine ⟨hres, ?_, ?_⟩
  · rw [htrace]
    cases self.flutter_controller_ <;> cases env.CommandLineToArgvW <;>
      cases start_minimized _ <;> simp [List.count_cons]
  · refine ⟨_, htrace, ?_, ?_, ?_, ?_, ?_⟩
    · cases self.flutter_controller_ <;> cases env.CommandLineToArgvW <;>
        cases start_minimized _ <;> simp
    · simp
    · simp
    · simp
    · intro e he hshow
      rw [htrace] at he
      rcases List.mem_append.mp he with h | h
      · exact h
      · rw [List.mem_singleton] at h
        subst h
        simp [Event.isSetNextFrameCallback] at hshow

/-- Witness for C7: a minimized start and a normal start both end with the one
`ForceRedraw` request. -/
theorem OnCreate_force_redraw_once_last_witness :
    ((OnCreate (sampleCreateEnv (some [wide "app.exe", minimizedLiteral]))
        FlutterWindow.new).result = true ∧
      (OnCreate (sampleCreateEnv (some [wide "app.exe", minimizedLiteral]))
        FlutterWindow.new).trace.count Event.ForceRedraw = 1) ∧
    ((OnCreate (sampleCreateEnv (some [wide "app.exe"])) FlutterWindow.new).result = true ∧
      (OnCreate (sampleCreateEnv (some [wide "app.exe"]))
        FlutterWindow.new).trace.count Event.ForceRedraw = 1) :=
  ⟨⟨(OnCreate_force_redraw_once_last
        (sampleCreateEnv (some [wide "app.exe", minimizedLiteral]))
        FlutterWindow.new ⟨1⟩ ⟨2⟩ rfl rfl rfl).1,
      (OnCreate_force_redraw_once_last
        (sampleCreateEnv (some [wide "app.exe", minimizedLiteral]))
        FlutterWindow.new ⟨1⟩ ⟨2⟩ rfl rfl rfl).2.1⟩,
    ⟨(OnCreate_force_redraw_once_last (sampleCreateEnv (some [wide "app.exe"]))
        FlutterWindow.new ⟨1⟩ ⟨2⟩ rfl rfl rfl).1,
      (OnCreate_force_redraw_once_last (sampleCreateEnv (some [wide "app.exe"]))
        FlutterWindow.new ⟨1⟩ ⟨2⟩ rfl rfl rfl).2.1⟩⟩

/-- C6: `OnDestroy` is idempotent with respect to the engine controller: after
any call the controller is absent; in a state whose controller is already
absent a further call leaves the window object unchanged and releases nothing;
a second call after a first leaves the state of the first and releases
nothing; and when the controller was present the two calls together release it
exactly once. -/
theorem OnDestroy_idempotent (self : FlutterWindow) :
    (OnDestroy self).window.flutter_controller_ = none ∧
    (self.flutter_controller_ = none →
      (OnDestroy self).window = self ∧ releaseCount (OnDestroy self).trace = 0) ∧
    (OnDestroy (OnDestroy self).window).window = (OnDestroy self).window ∧
    releaseCount (OnDestroy (OnDestroy self).window).trace = 0 ∧
    (self.flutter_controller_.isSome = true →
      releaseCount (OnDestroy self).trace = 1 ∧
      releaseCount
        ((OnDestroy self).trace ++ (OnDestroy (OnDestroy self).window).trace) = 1) := by
  obtain ⟨controller⟩ := self
  cases controller <;> simp [OnDestroy, releaseCount, List.count_cons]

/-- Witness for C6: destroying a window that owns a controller twice releases
the controller once; destroying an empty window releases nothing. -/
theorem OnDestroy_idempotent_witness :
    ((OnDestroy FlutterWindow.new).window = FlutterWindow.new ∧
      releaseCount (OnDestroy FlutterWindow.new).trace = 0) ∧
    (releaseCount (OnDestroy ⟨some sampleController⟩).trace = 1 ∧
      releaseCount
        ((OnDestroy ⟨some sampleController⟩).trace ++
          (OnDestroy (OnDestroy ⟨some sampleController⟩).window).trace) = 1) :=
  ⟨(OnDestroy_idempotent FlutterWindow.new).2.1 rfl,
    (OnDestroy_idempotent ⟨some sampleController⟩).2.2.2.2 rfl⟩

/-- C2: for every message, the font-change message included, if the engine
controller is present and `HandleTopLevelWindowProc` reports the message handled
with result `R`, then `MessageHandler` returns exactly `R` and its only call is
that offer: neither `ReloadSystemFonts` nor `Win32Window::MessageHandler` is
invoked. -/
theorem MessageHandler_handled_returns_result (env : MessageEnv) (self : FlutterWindow)
    (controller : FlutterViewController) (hwnd : HWND) (message : UINT)
    (wparam : WPARAM) (lparam : LPARAM) (R : LRESULT)
    (hpresent : self.flutter_controller_ = some controller)
    (hhandled : env.HandleTopLevelWindowProc controller hwnd message wparam lparam = some R) :
    (MessageHandler env self hwnd message wparam lparam).outcome = Outcome.returned R ∧
    (MessageHandler env self hwnd message wparam lparam).trace =
      [Event.HandleTopLevelWindowProc hwnd message wparam lparam] ∧
    (∀ e ∈ (MessageHandler env self hwnd message wparam lparam).trace,
      e.isReloadSystemFonts = false ∧ e.isWin32MessageHandler = false) := by
  simp [MessageHandler, hpresent, hhandled, Event.isReloadSystemFonts,
    Event.isWin32MessageHandler]

/-- Witness for C2: a font-change message claimed by the engine with result 7. -/
theorem MessageHandler_handled_returns_result_witness :
    (MessageHandler claimingEnv ⟨some sampleController⟩ 1 WM_FONTCHANGE 0 0).outcome
      = Outcome.returned 7 ∧
    (MessageHandler claimingEnv ⟨some sampleController⟩ 1 WM_FONTCHANGE 0 0).trace =
      [Event.HandleTopLevelWindowProc 1 WM_FONTCHANGE 0 0] ∧
    (∀ e ∈ (MessageHandler claimingEnv ⟨some sampleController⟩ 1 WM_FONTCHANGE 0 0).trace,
      e.isReloadSystemFonts = false ∧ e.isWin32MessageHandler = false) :=
  MessageHandler_handled_returns_result claimingEnv ⟨some sampleController⟩
    sampleController 1 WM_FONTCHANGE 0 0 7 rfl rfl

/-- C5, as stated, fails: a font-change message that the engine does not claim
as handled is not followed by a reload and a default result when there is no
engine to reload.  With the controller absent nothing is claimed (the message
is not even offered), no `ReloadSystemFonts` call is made and the run does not
return the result of `Win32Window::MessageHandler`; the same holds for the
window left by a run of `OnCreate` that failed its engine check, whose
controller is present, declines the message and has a null `engine()`. -/
theorem MessageHandler_fontchange_unclaimed_without_engine_no_reload :
    ((∀ controller, FlutterWindow.new.flutter_controller_ = some controller →
        decliningEnv.HandleTopLevelWindowProc controller 1 WM_FONTCHANGE 0 0 = none) ∧
      (MessageHandler decliningEnv FlutterWindow.new 1 WM_FONTCHANGE 0 0).trace.countP
        Event.isReloadSystemFonts = 0 ∧
      (MessageHandler decliningEnv FlutterWindow.new 1 WM_FONTCHANGE 0 0).outcome ≠
        Outcome.returned (decliningEnv.Win32MessageHandler 1 WM_FONTCHANGE 0 0)) ∧
    ((OnCreate ⟨true, ⟨0, 0, 800, 600⟩, none, some ⟨2⟩, none⟩ FlutterWindow.new).window
        = ⟨some enginelessController⟩ ∧
      decliningEnv.HandleTopLevelWindowProc enginelessController 1 WM_FONTCHANGE 0 0
        = none ∧
      (MessageHandler decliningEnv ⟨some enginelessController⟩ 1 WM_FONTCHANGE 0 0).trace
        = [Event.HandleTopLevelWindowProc 1 WM_FONTCHANGE 0 0] ∧
      (MessageHandler decliningEnv ⟨some enginelessController⟩ 1 WM_FONTCHANGE 0 0
        ).trace.countP Event.isReloadSystemFonts = 0 ∧
      (MessageHandler decliningEnv ⟨some enginelessController⟩ 1 WM_FONTCHANGE 0 0).outcome
        ≠ Outcome.returned (decliningEnv.Win32MessageHandler 1 WM_FONTCHANGE 0 0)) := by
  refine ⟨⟨?_, ?_, ?_⟩, ?_, rfl, ?_, ?_, ?_⟩
  · intro controller h
    rfl
  all_goals
    simp [MessageHandler, OnCreate, FlutterWindow.new, decliningEnv, enginelessController,
      Event.isReloadSystemFonts, List.countP_cons]

/-- C5, amended: for every font-change message that is offered to a present
engine controller whose `engine()` is non-null and that
`HandleTopLevelWindowProc` does not claim as handled, `MessageHandler` invokes
`ReloadSystemFonts` exactly once, after the offer and before
`Win32Window::MessageHandler`, and returns the result of
`Win32Window::MessageHandler` for the same four arguments. -/
theorem MessageHandler_fontchange_reloads_once (env : MessageEnv) (self : FlutterWindow)
    (controller : FlutterViewController) (engine : FlutterEngine)
    (hwnd : HWND) (wparam : WPARAM) (lparam : LPARAM)
    (hpresent : self.flutter_controller_ = some controller)
    (hengine : controller.engine = some engine)
    (hdeclined :
      env.HandleTopLevelWindowProc controller hwnd WM_FONTCHANGE wparam lparam = none) :
    (MessageHandler env self hwnd WM_FONTCHANGE wparam lparam).outcome =
      Outcome.returned (env.Win32MessageHandler hwnd WM_FONTCHANGE wparam lparam) ∧
    (MessageHandler env self hwnd WM_FONTCHANGE wparam lparam).trace =
      [Event.HandleTopLevelWindowProc hwnd WM_FONTCHANGE wparam lparam,
        Event.ReloadSystemFonts engine,
        Event.Win32MessageHandler hwnd WM_FONTCHANGE wparam lparam] ∧
    (MessageHandler env self hwnd WM_FONTCHANGE wparam lparam).trace.countP
      Event.isReloadSystemFonts = 1 := by
  simp [MessageHandler, hpresent, hengine, hdeclined, Event.isReloadSystemFonts,
    List.countP_cons]

/-- Witness for C5: a font-change message declined by the engine of a valid
controller. -/
theorem MessageHandler_fontchange_reloads_once_witness :
    (MessageHandler decliningEnv ⟨some sampleController⟩ 1 WM_FONTCHANGE 0 0).outcome =
      Outcome.returned (decliningEnv.Win32MessageHandler 1 WM_FONTCHANGE 0 0) ∧
    (MessageHandler decliningEnv ⟨some sampleController⟩ 1 WM_FONTCHANGE 0 0).trace =
      [Event.HandleTopLevelWindowProc 1 WM_FONTCHANGE 0 0,
        Event.ReloadSystemFonts ⟨1⟩,
        Event.Win32MessageHandler 1 WM_FONTCHANGE 0 0] ∧
    (MessageHandler decliningEnv ⟨some sampleController⟩ 1 WM_FONTCHANGE 0 0).trace.countP
      Event.isReloadSystemFonts = 1 :=
  MessageHandler_fontchange_reloads_once decliningEnv ⟨some sampleController⟩
    sampleController ⟨1⟩ 1 0 0 rfl rfl rfl

/-- C8: for every message other than the font-change message that the engine
does not claim as handled (the controller is absent, or it is present and
`HandleTopLevelWindowProc` answers "not handled"), `MessageHandler` does not
call `ReloadSystemFonts` and returns exactly the result of
`Win32Window::MessageHandler` for the same four arguments; when the controller
is present the message is offered to it exactly once, before the default
handler, and when it is absent the default handler is the only call. -/
theorem MessageHandler_unclaimed_falls_through (env : MessageEnv) (self : FlutterWindow)
    (hwnd : HWND) (message : UINT) (wparam : WPARAM) (lparam : LPARAM)
    (hother : message ≠ WM_FONTCHANGE)
    (hunclaimed : ∀ controller, self.flutter_controller_ = some controller →
      env.HandleTopLevelWindowProc controller hwnd message wparam lparam = none) :
    (MessageHandler env self hwnd message wparam lparam).outcome =
      Outcome.returned (env.Win32MessageHandler hwnd message wparam lparam) ∧
    (∀ e ∈ (MessageHandler env self hwnd message wparam lparam).trace,
      e.isReloadSystemFonts = false) ∧
    (MessageHandler env self hwnd message wparam lparam).trace =
      (if self.flutter_controller_.isSome then
        [Event.HandleTopLevelWindowProc hwnd message wparam lparam] else []) ++
      [Event.Win32MessageHandler hwnd message wparam lparam] := by
  obtain ⟨controller⟩ := self
  cases controller with
  | none => simp [MessageHandler, hother, Event.isReloadSystemFonts]
  | some c =>
    have hnone := hunclaimed c rfl
    simp [MessageHandler, hother, hnone, Event.isReloadSystemFonts]

/-- Witness for C8: a message other than font-change (identifier 15), with the
controller absent and with a controller whose engine declines. -/
theorem MessageHandler_unclaimed_falls_through_witness :
    ((MessageHandler decliningEnv FlutterWindow.new 1 15 0 0).outcome =
        Outcome.returned 15 ∧
      (MessageHandler decliningEnv FlutterWindow.new 1 15 0 0).trace =
        [Event.Win32MessageHandler 1 15 0 0]) ∧
    ((MessageHandler decliningEnv ⟨some sampleController⟩ 1 15 0 0).outcome =
        Outcome.returned 15 ∧
      (MessageHandler decliningEnv ⟨some sampleController⟩ 1 15 0 0).trace =
        [Event.HandleTopLevelWindowProc 1 15 0 0, Event.Win32MessageHandler 1 15 0 0]) :=
  ⟨⟨(MessageHandler_unclaimed_falls_through decliningEnv FlutterWindow.new 1 15 0 0
        (by decide) (fun _ _ => rfl)).1,
      (MessageHandler_unclaimed_falls_through decliningEnv FlutterWindow.new 1 15 0 0
        (by decide) (fun _ _ => rfl)).2.2⟩,
    ⟨(MessageHandler_unclaimed_falls_through decliningEnv ⟨some sampleController⟩ 1 15 0 0
        (by decide) (fun _ _ => rfl)).1,
      (MessageHandler_unclaimed_falls_through decliningEnv ⟨some sampleController⟩ 1 15 0 0
        (by decide) (fun _ _ => rfl)).2.2⟩⟩

/-- C9, evaluated on the code: with the controller absent (in a new window
object, or after `OnDestroy` of any window) a font-change message is not
offered to the engine, and the `WM_FONTCHANGE` case then applies `->` to the
null `flutter_controller_`: the run ends in a null dereference before
`Win32Window::MessageHandler` is called, for every answer of the collaborators
and every window handle and parameters. -/
theorem MessageHandler_fontchange_absent_controller_dereferences_null
    (env : MessageEnv) (self : FlutterWindow) (hwnd : HWND) (wparam : WPARAM)
    (lparam : LPARAM) :
    MessageHandler env FlutterWindow.new hwnd WM_FONTCHANGE wparam lparam =
      ⟨Outcome.nullDereference, []⟩ ∧
    MessageHandler env (OnDestroy self).window hwnd WM_FONTCHANGE wparam lparam =
      ⟨Outcome.nullDereference, []⟩ := by
  obtain ⟨controller⟩ := self
  cases controller <;> simp [MessageHandler, OnDestroy, FlutterWindow.new]

/-- C4: for every registry, the names under which `RegisterPluginsForSubWindow`
requests a registrar are exactly the eight sub-window entries, in the order of
the source, without repetition and without the tray entry `TrayManagerPlugin`
or the hotkey entry `HotkeyManagerWindowsPlugin`; each of the eight attach
routines is called exactly once, with the registrar obtained under its name. -/
theorem RegisterPluginsForSubWindow_requests_eight (registry : PluginRegistry) :
    requestedNames (RegisterPluginsForSubWindow registry) =
      ["DesktopMultiWindowPlugin", "DynamicColorPluginCApi", "IsarFlutterLibsPlugin",
        "MediaKitLibsWindowsAudioPluginCApi", "PermissionHandlerWindowsPlugin",
        "ScreenRetrieverWindowsPluginCApi", "UrlLauncherWindows", "WindowManagerPlugin"] ∧
    "TrayManagerPlugin" ∉ requestedNames (RegisterPluginsForSubWindow registry) ∧
    "HotkeyManagerWindowsPlugin" ∉ requestedNames (RegisterPluginsForSubWindow registry) ∧
    (requestedNames (RegisterPluginsForSubWindow registry)).Nodup ∧
    (requestedNames (RegisterPluginsForSubWindow registry)).length = 8 ∧
    attachCalls (RegisterPluginsForSubWindow registry) =
      [("DesktopMultiWindowPluginRegisterWithRegistrar",
          registry.GetRegistrarForPlugin "DesktopMultiWindowPlugin"),
        ("DynamicColorPluginCApiRegisterWithRegistrar",
          registry.GetRegistrarForPlugin "DynamicColorPluginCApi"),
        ("IsarFlutterLibsPluginRegisterWithRegistrar",
          registry.GetRegistrarForPlugin "IsarFlutterLibsPlugin"),
        ("MediaKitLibsWindowsAudioPluginCApiRegisterWithRegistrar",
          registry.GetRegistrarForPlugin "MediaKitLibsWindowsAudioPluginCApi"),
        ("PermissionHandlerWindowsPluginRegisterWithRegistrar",
          registry.GetRegistrarForPlugin "PermissionHandlerWindowsPlugin"),
        ("ScreenRetrieverWindowsPluginCApiRegisterWithRegistrar",
          registry.GetRegistrarForPlugin "ScreenRetrieverWindowsPluginCApi"),
        ("UrlLauncherWindowsRegisterWithRegistrar",
          registry.GetRegistrarForPlugin "UrlLauncherWindows"),
        ("WindowManagerPluginRegisterWithRegistrar",
          registry.GetRegistrarForPlugin "WindowManagerPlugin")] := by
  have hnames : requestedNames (RegisterPluginsForSubWindow registry) =
      ["DesktopMultiWindowPlugin", "DynamicColorPluginCApi", "IsarFlutterLibsPlugin",
        "MediaKitLibsWindowsAudioPluginCApi", "PermissionHandlerWindowsPlugin",
        "ScreenRetrieverWindowsPluginCApi", "UrlLauncherWindows", "WindowManagerPlugin"] := by
    simp [RegisterPluginsForSubWindow, registerOne, requestedNames]
  rw [hnames]
  refine ⟨rfl, by decide, by decide, by decide, rfl, ?_⟩
  simp [RegisterPluginsForSubWindow, registerOne, attachCalls]

end Runner
